import Mathlib

/-!
Shallow embedding of the preprocessing transformers in
`sklearn_extension/preprocessing/data.py` (dstools repository), together with
proofs settling the frozen claims about them.

Modelling conventions:
* A DataFrame is an association list of named columns; numeric cells are
  `Option ℚ` where `none` stands for a missing value (NaN).  Comparisons
  against NaN are false, matching pandas/numpy semantics.
* External statistical primitives that the spec explicitly excludes
  (mean, std, quantile, correlation, skewness) are passed in as function
  parameters; only the behaviour the source itself relies on (e.g. pandas
  `std` being NaN with fewer than two observations) is modelled.
* Python exceptions become `Except PyError`; `warnings.warn` calls are
  accumulated in a list of diagnostic strings.
-/

/-- Python exceptions raised by the embedded code. -/
inductive PyError where
  | keyError (key : String)
  | valueError (msg : String)
  | typeError (msg : String)
  | notFittedError (msg : String)
deriving DecidableEq

/-- A numeric DataFrame: named columns of `Option ℚ` cells (`none` = NaN). -/
abbrev Table := List (String × List (Option ℚ))

/-- Column names of a table, in order (`X.columns`). -/
def tableCols (X : Table) : List String := X.map (fun p => p.1)

/-- Column lookup by name (`X[col]`); `none` when the column is absent. -/
def tableGet (X : Table) (c : String) : Option (List (Option ℚ)) :=
  (X.find? (fun p => decide (p.1 = c))).map (fun p => p.2)

/-- Replace the cells of column `c` by `f` applied to them, leaving every
other column untouched (the effect of a `X.loc[mask, col] = value` update). -/
def tableModify (X : Table) (c : String) (f : List (Option ℚ) → List (Option ℚ)) : Table :=
  X.map (fun p => if p.1 = c then (p.1, f p.2) else p)

/-- Comparison `a > b` on cells, false whenever either side is NaN (numpy semantics). -/
def cellGt (a b : Option ℚ) : Bool :=
  match a, b with
  | some x, some y => decide (y < x)
  | _, _ => false

/-- Comparison `a < b` on cells, false whenever either side is NaN (numpy semantics). -/
def cellLt (a b : Option ℚ) : Bool :=
  match a, b with
  | some x, some y => decide (x < y)
  | _, _ => false

/-- Update `x.loc[x[col] > upper, col] = upper` applied to one cell. -/
def clipUpper (u : Option ℚ) (v : Option ℚ) : Option ℚ :=
  if cellGt v u then u else v

/-- Update `x.loc[x[col] < lower, col] = lower` applied to one cell. -/
def clipLower (l : Option ℚ) (v : Option ℚ) : Option ℚ :=
  if cellLt v l then l else v

/-- The two consecutive `.loc` updates of the outlier removers applied to one
cell: first the upper clip, then the lower clip (source lines 81-82/129-130). -/
def clipCell (l u : Option ℚ) (v : Option ℚ) : Option ℚ :=
  clipLower l (clipUpper u v)

/-- NaN-propagating subtraction on `Option ℚ`. -/
def osub (a b : Option ℚ) : Option ℚ :=
  match a, b with
  | some x, some y => some (x - y)
  | _, _ => none

/-- NaN-propagating addition on `Option ℚ`. -/
def oadd (a b : Option ℚ) : Option ℚ :=
  match a, b with
  | some x, some y => some (x + y)
  | _, _ => none

/-- NaN-propagating scalar multiplication on `Option ℚ`. -/
def omul (k : ℚ) (a : Option ℚ) : Option ℚ :=
  match a with
  | some x => some (k * x)
  | none => none

/-- pandas column mean: NaN values are skipped; NaN when no observation. -/
def pandasMean (xs : List (Option ℚ)) : Option ℚ :=
  let obs := xs.filterMap id
  if obs.length = 0 then none else some (obs.sum / (obs.length : ℚ))

/-- pandas column std (`ddof = 1`): NaN values are skipped and the result is
NaN with fewer than two observations.  The finite value involves a square
root, which the spec treats as an external primitive, so it is abstracted as
the parameter `stdVal`. -/
def pandasStd (stdVal : List ℚ → ℚ) (xs : List (Option ℚ)) : Option ℚ :=
  let obs := xs.filterMap id
  if obs.length ≤ 1 then none else some (stdVal obs)

/-! ## NormDistOutlierRemover (source lines 40-83) -/

/-- Fitted state of `NormDistOutlierRemover`: configuration plus the fitted
`mean_` / `std_` Series (modelled as lookup functions on column names). -/
structure NormDistOutlierRemover where
  n_sigma : ℚ
  cols : List String
  error : String
  mean_ : String → Option ℚ
  std_ : String → Option ℚ

/-- Embedding of `NormDistOutlierRemover.fit`: records `X.mean()` and `X.std()` for the
configured scope (an empty `cols` is falsy in Python and defaults to all
columns, mirroring `self.cols = self.cols or X.columns`). -/
def NormDistOutlierRemover.fit (k : ℚ) (cols : List String) (err : String)
    (stdVal : List ℚ → ℚ) (X : Table) : NormDistOutlierRemover :=
  { n_sigma := k
    cols := if cols.isEmpty then tableCols X else cols
    error := err
    mean_ := fun c => (tableGet X c).bind pandasMean
    std_ := fun c => (tableGet X c).bind (pandasStd stdVal) }

/-- One iteration of the `for col in self.cols` loop of
`NormDistOutlierRemover.transform`.  When the column is absent the `raise`
policy raises a `ValueError`; under any other policy the loop body still
falls through to `x.loc[x[col] > upper_bound, col]`, whose `x[col]` raises a
`KeyError` (there is no `continue` after the warning). -/
def NormDistOutlierRemover.step (m : NormDistOutlierRemover)
    (acc : Table × List String) (col : String) : Except PyError (Table × List String) :=
  let msg := "Column " ++ col ++ " is not found in the DataFrame"
  match tableGet acc.1 col with
  | none =>
      if m.error = "raise" then Except.error (PyError.valueError msg)
      else Except.error (PyError.keyError col)
  | some vs =>
      let lower := osub (m.mean_ col) (omul m.n_sigma (m.std_ col))
      let upper := oadd (m.mean_ col) (omul m.n_sigma (m.std_ col))
      Except.ok (tableModify acc.1 col (fun _ => vs.map (clipCell lower upper)),
                 if (tableGet acc.1 col).isNone ∧ m.error = "warn" then acc.2 ++ [msg] else acc.2)

/-- Embedding of `NormDistOutlierRemover.transform`: clips each in-scope column to
`mean ± n_sigma * std`, returning the new table and the emitted warnings. -/
def NormDistOutlierRemover.transform (m : NormDistOutlierRemover) (X : Table) :
    Except PyError (Table × List String) :=
  m.cols.foldlM m.step (X, [])

/-! ## IQROutlierRemover (source lines 86-131) -/

/-- Fitted state of `IQROutlierRemover`: `q2` is the fitted median Series and
`iqr` the fitted `q3 - q1` Series. -/
structure IQROutlierRemover where
  multiplier : ℚ
  cols : List String
  error : String
  q2 : String → ℚ
  iqr : String → ℚ

/-- Embedding of `IQROutlierRemover.fit`: computes `q1`, `q3`, `q2` and `iqr = q3 - q1`
from the reference table's quantile primitive (`quantile c p` is
`X[c].quantile(p, interpolation=...)`, an external primitive). -/
def IQROutlierRemover.fit (m : ℚ) (cols : List String) (err : String)
    (quantile : String → ℚ → ℚ) : IQROutlierRemover :=
  { multiplier := m
    cols := cols
    error := err
    q2 := fun c => quantile c (1/2)
    iqr := fun c => quantile c (3/4) - quantile c (1/4) }

/-- The lower bound used by `IQROutlierRemover.transform` (source line 127):
`q2[col] - m * iqr[col]`. -/
def IQROutlierRemover.lowerBound (f : IQROutlierRemover) (c : String) : ℚ :=
  f.q2 c - f.multiplier * f.iqr c

/-- The upper bound used by `IQROutlierRemover.transform` (source line 128):
`q2[col] + m * iqr[col]`. -/
def IQROutlierRemover.upperBound (f : IQROutlierRemover) (c : String) : ℚ :=
  f.q2 c + f.multiplier * f.iqr c

/-- One iteration of the `for col in self.cols` loop of
`IQROutlierRemover.transform`; same missing-column structure as the
normal-distribution remover. -/
def IQROutlierRemover.step (f : IQROutlierRemover)
    (acc : Table × List String) (col : String) : Except PyError (Table × List String) :=
  let msg := "Column " ++ col ++ " is not found in the DataFrame"
  match tableGet acc.1 col with
  | none =>
      if f.error = "raise" then Except.error (PyError.valueError msg)
      else Except.error (PyError.keyError col)
  | some vs =>
      Except.ok (tableModify acc.1 col
                   (fun _ => vs.map (clipCell (some (f.lowerBound col)) (some (f.upperBound col)))),
                 if (tableGet acc.1 col).isNone ∧ f.error = "warn" then acc.2 ++ [msg] else acc.2)

/-- Embedding of `IQROutlierRemover.transform`. -/
def IQROutlierRemover.transform (f : IQROutlierRemover) (X : Table) :
    Except PyError (Table × List String) :=
  f.cols.foldlM f.step (X, [])

/-- The textbook Tukey lower fence `Q1 - m * IQR`, written from the spec's
words for comparison with the source's median-centred bound. -/
def tukeyLowerFence (q1 iqr m : ℚ) : ℚ := q1 - m * iqr

/-- The textbook Tukey upper fence `Q3 + m * IQR`, written from the spec's
words for comparison with the source's median-centred bound. -/
def tukeyUpperFence (q3 iqr m : ℚ) : ℚ := q3 + m * iqr

/-! ## QuantileOutlierRemover (source lines 134-180) -/

/-- Fitted state of `QuantileOutlierRemover`.  `upper_threshold c` models
`self.upper_threshold[c]`: it is `none` exactly when the source leaves
`self.upper_threshold = None` (no positively skewed column), in which case the
transform loop over `pos_skew_cols` is empty and the Series is never indexed;
likewise for `lower_threshold`. -/
structure QuantileOutlierRemover where
  skewness_threshold : ℚ
  outlier_quantile : ℚ
  cols : List String
  pos_skew_cols : List String
  neg_skew_cols : List String
  upper_threshold : String → Option ℚ
  lower_threshold : String → Option ℚ

/-- Embedding of `QuantileOutlierRemover.fit`: splits the scope by the per-column skewness
statistic (`skewFn`, an external primitive) against the threshold, and fits
the one-sided quantile bounds (`quantile c p` is `X[c].quantile(p)`).
`allNumCols` plays the role of `X.select_dtypes(include='number').columns`
when `cols` is falsy. -/
def QuantileOutlierRemover.fit (t q : ℚ) (cols0 : List String) (allNumCols : List String)
    (skewFn : String → ℚ) (quantile : String → ℚ → ℚ) : QuantileOutlierRemover :=
  let cols := if cols0.isEmpty then allNumCols else cols0
  let pos := cols.filter (fun c => decide (skewFn c > t))
  let neg := cols.filter (fun c => decide (skewFn c < -t))
  { skewness_threshold := t
    outlier_quantile := q
    cols := cols
    pos_skew_cols := pos
    neg_skew_cols := neg
    upper_threshold := fun c => if pos.isEmpty then none else some (quantile c (1 - q))
    lower_threshold := fun c => if neg.isEmpty then none else some (quantile c q) }

/-- Embedding of `QuantileOutlierRemover.transform`: clips columns of `X` that are in
`pos_skew_cols` from above and columns in `neg_skew_cols` from below; every
other column is untouched. -/
def QuantileOutlierRemover.transform (f : QuantileOutlierRemover) (X : Table) : Table :=
  let pos := (tableCols X).filter (fun c => decide (c ∈ f.pos_skew_cols))
  let neg := (tableCols X).filter (fun c => decide (c ∈ f.neg_skew_cols))
  let X1 := pos.foldl (fun acc c => tableModify acc c (List.map (clipUpper (f.upper_threshold c)))) X
  neg.foldl (fun acc c => tableModify acc c (List.map (clipLower (f.lower_threshold c)))) X1

/-! ## CorrelationRemover (source lines 238-322) -/

/-- The inner `for j in range(i+1, len(numerical_cols))` loop of
`CorrelationRemover.fit`: `ca` is the current outer column, the first list
argument holds the columns after it, and the accumulator is `self.drop_cols`.
A later column is appended when it is not already dropped and its absolute
correlation with `ca` exceeds the threshold. -/
def greedyInner (corrAbs : String → String → ℚ) (t : ℚ) (ca : String) :
    List String → List String → List String
  | [], drop => drop
  | cb :: rest, drop =>
      greedyInner corrAbs t ca rest
        (if cb ∉ drop ∧ corrAbs ca cb > t then drop ++ [cb] else drop)

/-- The outer `for i, c_a in enumerate(numerical_cols)` loop of
`CorrelationRemover.fit`: each column in turn is compared against all the
columns after it, whether or not it was itself dropped earlier. -/
def greedyOuter (corrAbs : String → String → ℚ) (t : ℚ) :
    List String → List String → List String
  | [], drop => drop
  | ca :: rest, drop => greedyOuter corrAbs t rest (greedyInner corrAbs t ca rest drop)

/-- The complete greedy elimination pass of `CorrelationRemover.fit`, started
from an empty `drop_cols` (source lines 288-298). -/
def greedyDrop (corrAbs : String → String → ℚ) (t : ℚ) (order : List String) : List String :=
  greedyOuter corrAbs t order []

/-- Fitted state of `CorrelationRemover`: `drop_cols` is `none` before `fit`
(the constructor sets `self.drop_cols = None`) and `some` afterwards. -/
structure CorrelationRemover where
  threshold : ℚ
  drop_cols : Option (List String) := none
  keep_cols : List String := []

/-- Embedding of `CorrelationRemover.fit` for a purely numeric scope.  The source iterates
`numerical_cols = list(set(cols) - set(self.categorical_cols))`; a Python set
scrambles the caller's order, so the order actually iterated is passed in as
`numOrder`, constrained by callers to be some permutation of the set
difference.  `corrAbs i j` is `X[numerical_cols].corr(method=...).abs().loc[i, j]`,
an external primitive.  `keep_cols` filters the original `cols`, preserving
their order. -/
def CorrelationRemover.fit (cols numOrder : List String)
    (corrAbs : String → String → ℚ) (t : ℚ) : CorrelationRemover :=
  let drop := greedyDrop corrAbs t numOrder
  { threshold := t
    drop_cols := some drop
    keep_cols := cols.filter (fun c => decide (c ∉ drop)) }

/-- Selection `X[cs]`: the listed columns in the listed order, raising
`KeyError` when one is absent. -/
def selectCols (X : Table) (cs : List String) : Except PyError Table :=
  if cs.all (fun c => (tableGet X c).isSome) then
    Except.ok (cs.filterMap (fun c => (tableGet X c).map (fun vs => (c, vs))))
  else
    Except.error (PyError.keyError "column not in index")

/-- Embedding of `CorrelationRemover.transform`: raises `NotFittedError` while `drop_cols`
is still `None`, and returns `X[self.keep_cols]` otherwise. -/
def CorrelationRemover.transform (s : CorrelationRemover) (X : Table) : Except PyError Table :=
  match s.drop_cols with
  | none => Except.error (PyError.notFittedError
      "This CorrelationRemover is not fitted. Call the fit method first.")
  | some _ => selectCols X s.keep_cols

/-! ## _encode_python and OrdinalEncoder (source lines 13-37, 183-235) -/

/-- Code-point comparison of characters, matching the order Python's `sorted`
uses on strings. -/
def lexLtChars : List Char → List Char → Bool
  | [], [] => false
  | [], _ :: _ => true
  | _ :: _, [] => false
  | a :: as, b :: bs =>
      if a.toNat < b.toNat then true
      else if b.toNat < a.toNat then false
      else lexLtChars as bs

/-- Insert a string into a list kept in ascending code-point order. -/
def insertSorted (s : String) : List String → List String
  | [] => [s]
  | t :: rest => if lexLtChars t.data s.data then t :: insertSorted s rest else s :: t :: rest

/-- Ascending insertion sort on strings (code-point order, as Python). -/
def sortStrings : List String → List String
  | [] => []
  | s :: rest => insertSorted s (sortStrings rest)

/-- Python `sorted(set(values))`: the distinct values in ascending order. -/
def sortedUniques (values : List String) : List String :=
  sortStrings values.dedup

/-- The dict `table = {val: i for i, val in enumerate(uniques)}` as a lookup:
later bindings of a repeated key overwrite earlier ones, hence the fold keeps
the last matching index. -/
def pyDictIndex (uniques : List String) (v : String) : Option Nat :=
  (List.range uniques.length).foldl
    (fun acc i => if uniques.getD i "" = v then some i else acc) none

/-- The first value whose dict lookup raises `KeyError` in the comprehension
`[table[v] for v in values]`, if any. -/
def firstUnseen (uniques values : List String) : Option String :=
  values.find? (fun v => (pyDictIndex uniques v).isNone)

/-- Result of `_encode_python` with `encode=True`: the uniques, the encoded
codes, and the warnings emitted. -/
structure EncodeResult where
  uniques : List String
  encoded : List Nat
  warnings : List String
deriving DecidableEq

/-- Embedding of `_encode_python(values, uniques, encode=True, unseen)`: encodes through
the dict built from `uniques`.  Only when some value is absent (the
comprehension raises `KeyError`) is the `unseen` policy consulted: `silent`
and `warn` re-encode with `table.get(v, len(uniques))` (warn additionally
emitting the diagnostic naming the offending value), `raise` raises a
`ValueError`, and anything else raises the invalid-option `ValueError`. -/
def encode_python (values uniques : List String) (unseen : String) :
    Except PyError EncodeResult :=
  match firstUnseen uniques values with
  | none =>
      Except.ok { uniques := uniques
                  encoded := values.map (fun v => (pyDictIndex uniques v).getD 0)
                  warnings := [] }
  | some bad =>
      let msg := "y contains previously unseen labels: " ++ bad
      if unseen = "silent" ∨ unseen = "warn" then
        Except.ok { uniques := uniques
                    encoded := values.map (fun v => (pyDictIndex uniques v).getD uniques.length)
                    warnings := if unseen = "warn" then [msg] else [] }
      else if unseen = "raise" then
        Except.error (PyError.valueError msg)
      else
        Except.error (PyError.valueError "The supported options for unseen are: silent, warn, raise")

/-- A DataFrame of string-valued columns (`none` = missing value). -/
abbrev StrTable := List (String × List (Option String))

/-- A cell of the table `OrdinalEncoder.transform` returns: untouched columns
keep their original (possibly missing) string values, encoded columns hold
integer codes. -/
inductive OrdCell where
  | strCell (s : Option String)
  | natCell (n : Nat)
deriving DecidableEq

/-- Tables produced by `OrdinalEncoder.transform`. -/
abbrev OrdTable := List (String × List OrdCell)

/-- Column lookup in a string table. -/
def strGet (X : StrTable) (c : String) : Option (List (Option String)) :=
  (X.find? (fun p => decide (p.1 = c))).map (fun p => p.2)

/-- Column lookup in an encoded table. -/
def ordGet (X : OrdTable) (c : String) : Option (List OrdCell) :=
  (X.find? (fun p => decide (p.1 = c))).map (fun p => p.2)

/-- Replace the cells of one column of an encoded table. -/
def ordModify (X : OrdTable) (c : String) (cells : List OrdCell) : OrdTable :=
  X.map (fun p => if p.1 = c then (p.1, cells) else p)

/-- Conversion `str(cell)` as used by `.astype(str)` on a transform-time cell; a missing
value stays missing so that the `fillna` / finiteness checks see it. -/
def cellStr : OrdCell → Option String
  | OrdCell.strCell s => s
  | OrdCell.natCell n => some (toString n)

/-- State of `OrdinalEncoder`.  `cols` keeps the constructor's value: `fit`
never assigns `self.cols`, so a default construction leaves it `None`
forever.  `categories_` is `none` before `fit`. -/
structure OrdinalEncoder where
  cols : Option (List String)
  fill : Bool
  error : String
  unseen : String
  categories_ : Option (List (String × List String)) := none
deriving DecidableEq

/-- Selection `X[cs]` on a string table (`KeyError` when a column is absent). -/
def selectStrCols (X : StrTable) (cs : List String) : Except PyError StrTable :=
  if cs.all (fun c => (strGet X c).isSome) then
    Except.ok (cs.filterMap (fun c => (strGet X c).map (fun vs => (c, vs))))
  else
    Except.error (PyError.keyError "column not in index")

/-- Embedding of `OrdinalEncoder.fit`: restricts to `self.cols` when that is truthy, then
either checks finiteness (`fill=False`) or fills missing values with the
sentinel, and records `sorted(set(...))` of each column's stringified values
as `self.categories_`.  Note that `self.cols` itself is left untouched. -/
def OrdinalEncoder.fit (e : OrdinalEncoder) (X : StrTable) : Except PyError OrdinalEncoder :=
  let sel : Except PyError StrTable :=
    match e.cols with
    | none => Except.ok X
    | some [] => Except.ok X
    | some cs => selectStrCols X cs
  match sel with
  | Except.error err => Except.error err
  | Except.ok X1 =>
      if e.fill = false ∧ X1.any (fun p => p.2.any (fun v => v.isNone)) then
        Except.error (PyError.valueError "Input contains NaN")
      else
        let cats := X1.map (fun p => (p.1, sortedUniques (p.2.map (fun v => v.getD "_MISSING"))))
        Except.ok { e with categories_ := some cats }

/-- One iteration of the `for col in self.cols` loop of
`OrdinalEncoder.transform`: the missing-column policy check, then the
`fillna` / finiteness handling of `x[col]` (whose lookup raises `KeyError`
when the column is absent — the loop has no `continue`), then
`_encode_python` against the fitted categories. -/
def OrdinalEncoder.step (e : OrdinalEncoder) (cats : List (String × List String))
    (acc : OrdTable × List String) (col : String) : Except PyError (OrdTable × List String) :=
  let msg := "Column " ++ col ++ " is not found in the DataFrame"
  match ordGet acc.1 col with
  | none =>
      if e.error = "raise" then Except.error (PyError.valueError msg)
      else Except.error (PyError.keyError col)
  | some cells =>
      let strs := cells.map cellStr
      if e.fill = false ∧ strs.any (fun s => s.isNone) then
        Except.error (PyError.valueError "Input contains NaN")
      else
        let filled := strs.map (fun s => s.getD "_MISSING")
        match (cats.find? (fun p => decide (p.1 = col))).map (fun p => p.2) with
        | none => Except.error (PyError.keyError col)
        | some uniques =>
            match encode_python filled uniques e.unseen with
            | Except.error err => Except.error err
            | Except.ok r =>
                Except.ok (ordModify acc.1 col (r.encoded.map OrdCell.natCell),
                           acc.2 ++ r.warnings)

/-- Embedding of `OrdinalEncoder.transform`: runs `check_is_fitted` first, then
`for col in self.cols` — which raises `TypeError` when `self.cols` is still
`None`, since `None` is not iterable. -/
def OrdinalEncoder.transform (e : OrdinalEncoder) (X : StrTable) :
    Except PyError (OrdTable × List String) :=
  match e.categories_ with
  | none => Except.error (PyError.notFittedError "This OrdinalEncoder is not fitted.")
  | some cats =>
      match e.cols with
      | none => Except.error (PyError.typeError "NoneType object is not iterable")
      | some cs =>
          cs.foldlM (e.step cats) (X.map (fun p => (p.1, p.2.map OrdCell.strCell)), [])

/-! ## Helper instances and lemmas -/

deriving instance DecidableEq for Except

/-- Scalar multiplication by NaN is NaN. -/
theorem omul_none (k : ℚ) : omul k none = none := rfl

/-- Subtraction with a NaN right operand is NaN. -/
theorem osub_none (a : Option ℚ) : osub a none = none := by cases a <;> rfl

/-- Addition with a NaN right operand is NaN. -/
theorem oadd_none (a : Option ℚ) : oadd a none = none := by cases a <;> rfl

/-- With both bounds NaN no comparison succeeds, so a cell passes through the
two `.loc` updates unchanged. -/
theorem clipCell_none_none (v : Option ℚ) : clipCell none none v = v := by
  cases v <;> rfl

/-- Looking up the only column of a one-column table. -/
theorem tableGet_single (c : String) (vs : List (Option ℚ)) :
    tableGet [(c, vs)] c = some vs := by
  simp [tableGet, List.find?]

/-- Modifying one column of a table leaves lookups of other columns alone. -/
theorem tableGet_tableModify_ne (X : Table) (name c : String)
    (f : List (Option ℚ) → List (Option ℚ)) (h : name ≠ c) :
    tableGet (tableModify X name f) c = tableGet X c := by
  induction X with
  | nil => rfl
  | cons p X ih =>
      have hmod : tableModify (p :: X) name f
          = (if p.1 = name then (p.1, f p.2) else p) :: tableModify X name f := rfl
      by_cases hc : p.1 = c
      · have hp : ¬ p.1 = name := fun hh => h (hh ▸ hc)
        rw [hmod, if_neg hp]
        unfold tableGet
        rw [List.find?_cons_of_pos _ (by simpa using hc),
            List.find?_cons_of_pos _ (by simpa using hc)]
      · by_cases hp : p.1 = name
        · rw [hmod, if_pos hp]
          unfold tableGet
          rw [List.find?_cons_of_neg _ (by simpa using hc),
              List.find?_cons_of_neg _ (by simpa using hc)]
          exact ih
        · rw [hmod, if_neg hp]
          unfold tableGet
          rw [List.find?_cons_of_neg _ (by simpa using hc),
              List.find?_cons_of_neg _ (by simpa using hc)]
          exact ih

/-- Folding column modifications over a list that avoids `c` leaves column `c`
alone. -/
theorem tableGet_foldModify (L : List String)
    (g : String → List (Option ℚ) → List (Option ℚ)) (X : Table) (c : String)
    (h : c ∉ L) :
    tableGet (L.foldl (fun acc cc => tableModify acc cc (g cc)) X) c = tableGet X c := by
  induction L generalizing X with
  | nil => rfl
  | cons a L ih =>
      have ha : a ≠ c := fun hh => h (by simp [hh])
      have hL : c ∉ L := fun hh => h (by simp [hh])
      calc tableGet ((a :: L).foldl (fun acc cc => tableModify acc cc (g cc)) X) c
          = tableGet (L.foldl (fun acc cc => tableModify acc cc (g cc))
              (tableModify X a (g a))) c := rfl
        _ = tableGet (tableModify X a (g a)) c := ih (tableModify X a (g a)) hL
        _ = tableGet X c := tableGet_tableModify_ne X a c (g a) ha

/-- When no pairwise correlation exceeds the threshold the inner elimination
loop never appends anything. -/
theorem greedyInner_no_drop (corrAbs : String → String → ℚ) (t : ℚ)
    (h : ∀ a b, corrAbs a b ≤ t) (ca : String) (l drop : List String) :
    greedyInner corrAbs t ca l drop = drop := by
  induction l generalizing drop with
  | nil => rfl
  | cons cb rest ih =>
      have hcond : ¬ (cb ∉ drop ∧ corrAbs ca cb > t) := by
        rintro ⟨-, hgt⟩
        exact absurd hgt (not_lt.2 (h ca cb))
      simp [greedyInner, hcond, ih]

/-- When no pairwise correlation exceeds the threshold the outer elimination
loop leaves the accumulator unchanged. -/
theorem greedyOuter_no_drop (corrAbs : String → String → ℚ) (t : ℚ)
    (h : ∀ a b, corrAbs a b ≤ t) (l drop : List String) :
    greedyOuter corrAbs t l drop = drop := by
  induction l generalizing drop with
  | nil => rfl
  | cons ca rest ih =>
      simp [greedyOuter, greedyInner_no_drop corrAbs t h, ih]

/-! ## Claim theorems -/

/-- Claim C4 (confirmed): with fitted vocabulary a, b, transforming a column
containing the unseen value c encodes c to 2 (the vocabulary size): policy
silent raises nothing and emits no diagnostic, policy warn also encodes to 2
but emits the diagnostic naming the offending value, and policy raise fails
the whole transform. -/
theorem C4_unseen_value_policies :
    encode_python ["a", "c"] ["a", "b"] "silent" =
      Except.ok { uniques := ["a", "b"], encoded := [0, 2], warnings := [] } ∧
    encode_python ["a", "c"] ["a", "b"] "warn" =
      Except.ok { uniques := ["a", "b"], encoded := [0, 2],
                  warnings := ["y contains previously unseen labels: c"] } ∧
    encode_python ["a", "c"] ["a", "b"] "raise" =
      Except.error (PyError.valueError "y contains previously unseen labels: c") := by
  decide

/-- Claim C5 counterexample: an `unseen` policy outside the enumerated set is
not rejected at call time — encoding data with no unseen values under the
invalid policy bogus succeeds silently, so the failure does depend on the
data. -/
theorem C5_counterexample :
    encode_python ["a"] ["a", "b"] "bogus" =
      Except.ok { uniques := ["a", "b"], encoded := [0], warnings := [] } := by
  decide

/-- Claim C5 amended: an invalid `unseen` policy is only rejected lazily —
encoding succeeds whenever no unseen value occurs, and raises the
invalid-option error exactly when one does; an invalid `error` policy is
never validated at all, and transform proceeds normally when every scoped
column is present. -/
theorem C5_lazy_policy_validation (values uniques : List String) (p : String)
    (hp : ¬ (p = "silent" ∨ p = "warn" ∨ p = "raise")) :
    ((firstUnseen uniques values).isNone = true →
      encode_python values uniques p =
        Except.ok { uniques := uniques
                    encoded := values.map (fun v => (pyDictIndex uniques v).getD 0)
                    warnings := [] }) ∧
    (∀ bad, firstUnseen uniques values = some bad →
      encode_python values uniques p =
        Except.error
          (PyError.valueError "The supported options for unseen are: silent, warn, raise")) ∧
    (∀ (k : ℚ) (mu sd : String → Option ℚ) (vs : List (Option ℚ)),
      (NormDistOutlierRemover.transform
        { n_sigma := k, cols := ["x"], error := p, mean_ := mu, std_ := sd }
        [("x", vs)]).isOk = true) := by
  push_neg at hp
  obtain ⟨hp1, hp2, hp3⟩ := hp
  refine ⟨?_, ?_, ?_⟩
  · intro h
    rcases hfu : firstUnseen uniques values with _ | bad
    · simp [encode_python, hfu]
    · rw [hfu] at h
      simp at h
  · intro bad hbad
    simp [encode_python, hbad, hp1, hp2, hp3]
  · intro k mu sd vs
    rfl

/-- Claim C5 witness: the amended behaviour at concrete inputs — the invalid
policy bogus is accepted when all labels are in-vocabulary and rejected when
an unseen label occurs. -/
theorem C5_lazy_policy_validation_witness :
    encode_python ["a"] ["a", "b"] "bogus" =
      Except.ok { uniques := ["a", "b"], encoded := [0], warnings := [] } ∧
    encode_python ["c"] ["a", "b"] "bogus" =
      Except.error
        (PyError.valueError "The supported options for unseen are: silent, warn, raise") := by
  constructor
  · exact ((C5_lazy_policy_validation ["a"] ["a", "b"] "bogus" (by decide)).1
      (by decide)).trans (by decide)
  · exact (C5_lazy_policy_validation ["c"] ["a", "b"] "bogus" (by decide)).2.1 "c" (by decide)

/-- Claim C2 (code bug): for a remover fitted on column x, transforming a
table lacking x under policy raise raises the ValueError as claimed, but
under warn and ignore the loop body still evaluates `x[col]` on the missing
column (there is no `continue`), so instead of proceeding with the present
columns the transform dies with a KeyError; the same happens in
`OrdinalEncoder.transform`. -/
theorem C2_missing_column_policy_bug :
    NormDistOutlierRemover.transform
      { n_sigma := 3, cols := ["x"], error := "raise"
        mean_ := fun _ => some 0, std_ := fun _ => some 1 } [("y", [some 1])] =
      Except.error (PyError.valueError "Column x is not found in the DataFrame") ∧
    NormDistOutlierRemover.transform
      { n_sigma := 3, cols := ["x"], error := "warn"
        mean_ := fun _ => some 0, std_ := fun _ => some 1 } [("y", [some 1])] =
      Except.error (PyError.keyError "x") ∧
    NormDistOutlierRemover.transform
      { n_sigma := 3, cols := ["x"], error := "ignore"
        mean_ := fun _ => some 0, std_ := fun _ => some 1 } [("y", [some 1])] =
      Except.error (PyError.keyError "x") ∧
    IQROutlierRemover.transform
      { multiplier := 3/2, cols := ["x"], error := "warn"
        q2 := fun _ => 0, iqr := fun _ => 1 } [("y", [some 1])] =
      Except.error (PyError.keyError "x") ∧
    OrdinalEncoder.transform
      { cols := some ["x"], fill := true, error := "warn", unseen := "warn"
        categories_ := some [("x", ["a"])] } [("y", [some "a"])] =
      Except.error (PyError.keyError "x") := by
  refine ⟨rfl, rfl, rfl, rfl, rfl⟩

/-- Claim C3 (code bug): `OrdinalEncoder` built with the default column scope
does fit a vocabulary for every column of the reference table, but `fit`
never assigns `self.cols`, so the subsequent `transform` iterates over `None`
and dies with a TypeError instead of encoding the columns and returning
normally. -/
theorem C3_default_scope_bug :
    OrdinalEncoder.fit { cols := none, fill := true, error := "warn", unseen := "warn" }
      [("a", [some "y", some "x"]), ("b", [some "u", none])] =
      Except.ok { cols := none, fill := true, error := "warn", unseen := "warn"
                  categories_ := some [("a", ["x", "y"]), ("b", ["_MISSING", "u"])] } ∧
    OrdinalEncoder.transform
      { cols := none, fill := true, error := "warn", unseen := "warn"
        categories_ := some [("a", ["x", "y"]), ("b", ["_MISSING", "u"])] }
      [("a", [some "y", some "x"]), ("b", [some "u", none])] =
      Except.error (PyError.typeError "NoneType object is not iterable") := by
  decide

/-- Closed form of the double clip on a present value when the bounds are
ordered: clip to `U` from above first, then to `L` from below. -/
theorem clipCell_some_eq (L U z : ℚ) (h : L ≤ U) :
    clipCell (some L) (some U) (some z) =
      if U < z then some U else if z < L then some L else some z := by
  by_cases h1 : U < z
  · have h2 : ¬ (U < L) := not_lt.2 h
    simp [clipCell, clipUpper, clipLower, cellGt, cellLt, h1, h2]
  · by_cases h3 : z < L
    · simp [clipCell, clipUpper, clipLower, cellGt, cellLt, h1, h3]
    · simp [clipCell, clipUpper, clipLower, cellGt, cellLt, h1, h3]

/-- The double clip is idempotent on every cell once the bounds are ordered. -/
theorem clipCell_idem (L U : ℚ) (h : L ≤ U) (v : Option ℚ) :
    clipCell (some L) (some U) (clipCell (some L) (some U) v) =
      clipCell (some L) (some U) v := by
  rcases v with _ | z
  · rfl
  · rw [clipCell_some_eq L U z h]
    by_cases h1 : U < z
    · rw [if_pos h1, clipCell_some_eq L U U h, if_neg (lt_irrefl U), if_neg (not_lt.2 h)]
    · rw [if_neg h1]
      by_cases h3 : z < L
      · rw [if_pos h3, clipCell_some_eq L U L h, if_neg (not_lt.2 h), if_neg (lt_irrefl L)]
      · rw [if_neg h3, clipCell_some_eq L U z h, if_neg h1, if_neg h3]

/-- Mapping the double clip with NaN bounds is the identity on a column. -/
theorem map_clipCell_none_none (vs : List (Option ℚ)) :
    vs.map (clipCell none none) = vs := by
  induction vs with
  | nil => rfl
  | cons a l ih => simp [clipCell_none_none, ih]

/-- Claim C8 (confirmed): for ordered fitted bounds, each present value above
the upper bound is replaced by it, each value below the lower bound is
replaced by it, in-range values and missing values pass through, every
clipped value lies within the bounds, and the clip is idempotent cell-wise
and column-wise. -/
theorem C8_clipping (L U x : ℚ) (v : Option ℚ) (h : L ≤ U) :
    (U < x → clipCell (some L) (some U) (some x) = some U) ∧
    (x < L → clipCell (some L) (some U) (some x) = some L) ∧
    (L ≤ x → x ≤ U → clipCell (some L) (some U) (some x) = some x) ∧
    clipCell (some L) (some U) none = none ∧
    (∀ y, clipCell (some L) (some U) v = some y → L ≤ y ∧ y ≤ U) ∧
    clipCell (some L) (some U) (clipCell (some L) (some U) v) =
      clipCell (some L) (some U) v ∧
    (∀ vs : List (Option ℚ),
      (vs.map (clipCell (some L) (some U))).map (clipCell (some L) (some U)) =
        vs.map (clipCell (some L) (some U))) := by
  refine ⟨?_, ?_, ?_, rfl, ?_, clipCell_idem L U h v, ?_⟩
  · intro hx
    rw [clipCell_some_eq L U x h, if_pos hx]
  · intro hx
    have : ¬ U < x := not_lt.2 (le_of_lt (lt_of_lt_of_le hx h))
    rw [clipCell_some_eq L U x h, if_neg this, if_pos hx]
  · intro hL hU
    rw [clipCell_some_eq L U x h, if_neg (not_lt.2 hU), if_neg (not_lt.2 hL)]
  · intro y hy
    rcases v with _ | z
    · exact absurd hy (by simp [clipCell, clipUpper, clipLower, cellGt, cellLt])
    · rw [clipCell_some_eq L U z h] at hy
      by_cases h1 : U < z
      · rw [if_pos h1] at hy
        cases hy
        exact ⟨h, le_refl U⟩
      · rw [if_neg h1] at hy
        by_cases h3 : z < L
        · rw [if_pos h3] at hy
          cases hy
          exact ⟨le_refl L, h⟩
        · rw [if_neg h3] at hy
          cases hy
          exact ⟨not_lt.1 h3, not_lt.1 h1⟩
  · intro vs
    rw [List.map_map]
    exact List.map_congr_left (fun a _ => clipCell_idem L U h a)

/-- Claim C8 witness: the clipping facts evaluated at the concrete bounds
0 and 2, the present value 3 and the cell 5. -/
theorem C8_clipping_witness :
    ((0 : ℚ) ≤ 2) ∧
    (((2 : ℚ) < 3 → clipCell (some 0) (some 2) (some 3) = some 2) ∧
     ((3 : ℚ) < 0 → clipCell (some 0) (some 2) (some 3) = some 0) ∧
     ((0 : ℚ) ≤ 3 → (3 : ℚ) ≤ 2 → clipCell (some 0) (some 2) (some 3) = some 3) ∧
     clipCell (some 0) (some 2) none = none ∧
     (∀ y, clipCell (some 0) (some 2) (some 5) = some y → (0 : ℚ) ≤ y ∧ y ≤ 2) ∧
     clipCell (some 0) (some 2) (clipCell (some 0) (some 2) (some 5)) =
       clipCell (some 0) (some 2) (some 5) ∧
     (∀ vs : List (Option ℚ),
       (vs.map (clipCell (some 0) (some 2))).map (clipCell (some 0) (some 2)) =
         vs.map (clipCell (some 0) (some 2)))) :=
  ⟨by norm_num, C8_clipping 0 2 3 (some 5) (by norm_num)⟩

/-- One loop iteration of the normal-distribution transform on a present
column rewrites the column through the double clip and emits no warning. -/
theorem normdist_step_present (m : NormDistOutlierRemover) (x : Table)
    (w : List String) (col : String) (vs : List (Option ℚ))
    (hg : tableGet x col = some vs) :
    m.step (x, w) col = Except.ok
      (tableModify x col (fun _ => vs.map (clipCell
          (osub (m.mean_ col) (omul m.n_sigma (m.std_ col)))
          (oadd (m.mean_ col) (omul m.n_sigma (m.std_ col))))), w) := by
  unfold NormDistOutlierRemover.step
  rw [hg]
  simp [hg]

/-- A remover whose scope is the single column c with undefined std leaves a
one-column table untouched and warns about nothing. -/
theorem normdist_transform_single (m : NormDistOutlierRemover) (vs : List (Option ℚ))
    (hcols : m.cols = ["c"]) (hstd : m.std_ "c" = none) :
    m.transform [("c", vs)] = Except.ok ([("c", vs)], []) := by
  unfold NormDistOutlierRemover.transform
  rw [hcols]
  have hstep := normdist_step_present m [("c", vs)] [] "c" vs (tableGet_single _ _)
  rw [hstd, omul_none, osub_none, oadd_none] at hstep
  simp only [map_clipCell_none_none] at hstep
  have hmod : tableModify [("c", vs)] "c" (fun _ => vs) = [("c", vs)] := by
    simp [tableModify]
  rw [hmod] at hstep
  have hfold : List.foldlM m.step (([("c", vs)], []) : Table × List String) ["c"]
      = m.step ([("c", vs)], []) "c" >>= fun s => List.foldlM m.step s [] := rfl
  rw [hfold, hstep]
  rfl

/-- Claim C10 (confirmed): fitting a normal-distribution remover on a column
with exactly one observation succeeds, leaves the std (hence both bounds)
undefined rather than degenerate, and the subsequent transform returns the
column's values completely unchanged with no diagnostic. -/
theorem C10_single_observation (k : ℚ) (err : String) (stdVal : List ℚ → ℚ)
    (xs vs : List (Option ℚ)) (h1 : (xs.filterMap id).length = 1) :
    (NormDistOutlierRemover.fit k ["c"] err stdVal [("c", xs)]).std_ "c" = none ∧
    NormDistOutlierRemover.transform
      (NormDistOutlierRemover.fit k ["c"] err stdVal [("c", xs)]) [("c", vs)] =
      Except.ok ([("c", vs)], []) := by
  have hstd : (NormDistOutlierRemover.fit k ["c"] err stdVal [("c", xs)]).std_ "c" = none := by
    show ((tableGet [("c", xs)] "c").bind (pandasStd stdVal)) = none
    rw [tableGet_single]
    show pandasStd stdVal xs = none
    simp [pandasStd, h1]
  exact ⟨hstd, normdist_transform_single _ vs rfl hstd⟩

/-- Claim C10 witness: the single-observation behaviour at the concrete
reference column with the lone value 5, transforming the cells 9 and NaN. -/
theorem C10_single_observation_witness :
    (([some (5 : ℚ)].filterMap id).length = 1) ∧
    ((NormDistOutlierRemover.fit 3 ["c"] "warn" (fun _ => 0)
        [("c", [some (5 : ℚ)])]).std_ "c" = none ∧
     NormDistOutlierRemover.transform
       (NormDistOutlierRemover.fit 3 ["c"] "warn" (fun _ => 0) [("c", [some (5 : ℚ)])])
       [("c", [some 9, none])] =
       Except.ok ([("c", [some 9, none])], [])) :=
  ⟨rfl, C10_single_observation 3 "warn" (fun _ => 0) [some 5] [some 9, none] rfl⟩

/-- A concrete quantile assignment (Q1 = 0, Q2 = 10, Q3 = 12) separating the
source's median-centred bounds from the textbook Tukey fences. -/
def sampleQuantile : String → ℚ → ℚ :=
  fun _ p => if p = 1/4 then 0 else if p = 1/2 then 10 else 12

/-- Claim C7 (confirmed): the fitted IQR bounds are centred on the median —
lower is Q2 minus m times (Q3 - Q1) and upper is Q2 plus m times (Q3 - Q1)
under whatever interpolation the quantile primitive implements — and they
differ from the textbook Tukey fences at the sample quantiles Q1 = 0,
Q2 = 10, Q3 = 12 for every multiplier. -/
theorem C7_iqr_median_centered (m : ℚ) (cols : List String) (err : String)
    (quantile : String → ℚ → ℚ) (c : String) :
    (IQROutlierRemover.fit m cols err quantile).lowerBound c
        = quantile c (1/2) - m * (quantile c (3/4) - quantile c (1/4)) ∧
    (IQROutlierRemover.fit m cols err quantile).upperBound c
        = quantile c (1/2) + m * (quantile c (3/4) - quantile c (1/4)) ∧
    (IQROutlierRemover.fit m cols err sampleQuantile).lowerBound c ≠
        tukeyLowerFence (sampleQuantile c (1/4))
          (sampleQuantile c (3/4) - sampleQuantile c (1/4)) m ∧
    (IQROutlierRemover.fit m cols err sampleQuantile).upperBound c ≠
        tukeyUpperFence (sampleQuantile c (3/4))
          (sampleQuantile c (3/4) - sampleQuantile c (1/4)) m := by
  have e1 : sampleQuantile c (1/4) = 0 := by norm_num [sampleQuantile]
  have e2 : sampleQuantile c (1/2) = 10 := by norm_num [sampleQuantile]
  have e3 : sampleQuantile c (3/4) = 12 := by norm_num [sampleQuantile]
  refine ⟨rfl, rfl, ?_, ?_⟩
  · simp only [IQROutlierRemover.lowerBound, IQROutlierRemover.fit, tukeyLowerFence, e1, e2, e3]
    intro hcontr
    linarith
  · simp only [IQROutlierRemover.upperBound, IQROutlierRemover.fit, tukeyUpperFence, e1, e2, e3]
    intro hcontr
    linarith

/-- Claim C9 (confirmed): transform before fit fails with the NotFittedError
because `drop_cols` is still None, while a fit that found nothing to drop
(no pairwise correlation above the threshold) leaves an empty — not
undefined — DropSet, and transform then succeeds, returning the table
restricted to the KeepSet, which is the original scope list in its original
order. -/
theorem C9_notfitted_vs_empty_drop (cols numOrder : List String)
    (corrAbs : String → String → ℚ) (t : ℚ) (X : Table)
    (hno : ∀ a b, corrAbs a b ≤ t) :
    CorrelationRemover.transform { threshold := t } X =
      Except.error (PyError.notFittedError
        "This CorrelationRemover is not fitted. Call the fit method first.") ∧
    (CorrelationRemover.fit cols numOrder corrAbs t).drop_cols = some [] ∧
    (CorrelationRemover.fit cols numOrder corrAbs t).keep_cols = cols ∧
    CorrelationRemover.transform (CorrelationRemover.fit cols numOrder corrAbs t) X =
      selectCols X cols := by
  have hdrop : greedyDrop corrAbs t numOrder = [] :=
    greedyOuter_no_drop corrAbs t hno numOrder []
  have hkeep : (CorrelationRemover.fit cols numOrder corrAbs t).keep_cols = cols := by
    show cols.filter (fun c => decide (c ∉ greedyDrop corrAbs t numOrder)) = cols
    simp only [hdrop]
    simp
  refine ⟨rfl, ?_, hkeep, ?_⟩
  · show some (greedyDrop corrAbs t numOrder) = some []
    rw [hdrop]
  · show selectCols X (CorrelationRemover.fit cols numOrder corrAbs t).keep_cols
        = selectCols X cols
    rw [hkeep]

/-- Claim C9 witness: the fitted and unfitted behaviour at a concrete
one-column table with the all-zero correlation function. -/
theorem C9_notfitted_vs_empty_drop_witness :
    CorrelationRemover.transform { threshold := (0 : ℚ) } [("a", [some (1 : ℚ)])] =
      Except.error (PyError.notFittedError
        "This CorrelationRemover is not fitted. Call the fit method first.") ∧
    (CorrelationRemover.fit ["a"] ["a"] (fun _ _ => 0) 0).drop_cols = some [] ∧
    (CorrelationRemover.fit ["a"] ["a"] (fun _ _ => 0) 0).keep_cols = ["a"] ∧
    CorrelationRemover.transform (CorrelationRemover.fit ["a"] ["a"] (fun _ _ => 0) 0)
      [("a", [some (1 : ℚ)])] = selectCols [("a", [some (1 : ℚ)])] ["a"] :=
  C9_notfitted_vs_empty_drop ["a"] ["a"] (fun _ _ => 0) 0 [("a", [some 1])]
    (fun _ _ => le_refl 0)

/-- Claim C6 (confirmed): under the skew-adaptive strategy a column whose
skewness strictly exceeds the threshold joins only the positive list and the
fitted upper threshold is its (1 - q) quantile; a column whose skewness is
strictly below the negated threshold joins only the negative list with the q
quantile as lower threshold; a column inside the band joins neither list and
transform returns its values untouched. -/
theorem C6_skew_adaptive (t q : ℚ) (cols0 allNum : List String)
    (skewFn : String → ℚ) (quantile : String → ℚ → ℚ) (c : String) (X : Table)
    (f : QuantileOutlierRemover)
    (hf : f = QuantileOutlierRemover.fit t q cols0 allNum skewFn quantile)
    (ht : 0 ≤ t) (hc : c ∈ f.cols) :
    (t < skewFn c →
      c ∈ f.pos_skew_cols ∧ c ∉ f.neg_skew_cols ∧
      f.upper_threshold c = some (quantile c (1 - q))) ∧
    (skewFn c < -t →
      c ∈ f.neg_skew_cols ∧ c ∉ f.pos_skew_cols ∧
      f.lower_threshold c = some (quantile c q)) ∧
    (-t ≤ skewFn c → skewFn c ≤ t →
      c ∉ f.pos_skew_cols ∧ c ∉ f.neg_skew_cols ∧
      tableGet (QuantileOutlierRemover.transform f X) c = tableGet X c) := by
  subst hf
  have hpos_iff : ∀ x, x ∈ (QuantileOutlierRemover.fit t q cols0 allNum skewFn
        quantile).pos_skew_cols ↔
      x ∈ (QuantileOutlierRemover.fit t q cols0 allNum skewFn quantile).cols ∧
        t < skewFn x := by
    intro x
    constructor
    · intro hx
      exact ⟨(List.mem_filter.1 hx).1, of_decide_eq_true (List.mem_filter.1 hx).2⟩
    · intro hx
      exact List.mem_filter.2 ⟨hx.1, decide_eq_true hx.2⟩
  have hneg_iff : ∀ x, x ∈ (QuantileOutlierRemover.fit t q cols0 allNum skewFn
        quantile).neg_skew_cols ↔
      x ∈ (QuantileOutlierRemover.fit t q cols0 allNum skewFn quantile).cols ∧
        skewFn x < -t := by
    intro x
    constructor
    · intro hx
      exact ⟨(List.mem_filter.1 hx).1, of_decide_eq_true (List.mem_filter.1 hx).2⟩
    · intro hx
      exact List.mem_filter.2 ⟨hx.1, decide_eq_true hx.2⟩
  refine ⟨?_, ?_, ?_⟩
  · intro hskew
    have hp : c ∈ _ := (hpos_iff c).2 ⟨hc, hskew⟩
    refine ⟨hp, ?_, ?_⟩
    · intro hn
      have := ((hneg_iff c).1 hn).2
      linarith
    · show (if (QuantileOutlierRemover.fit t q cols0 allNum skewFn
          quantile).pos_skew_cols.isEmpty then none else some (quantile c (1 - q)))
          = some (quantile c (1 - q))
      rcases hpose : (QuantileOutlierRemover.fit t q cols0 allNum skewFn
          quantile).pos_skew_cols with _ | ⟨p0, prest⟩
      · rw [hpose] at hp
        exact absurd hp (List.not_mem_nil c)
      · rfl
  · intro hskew
    have hn : c ∈ _ := (hneg_iff c).2 ⟨hc, hskew⟩
    refine ⟨hn, ?_, ?_⟩
    · intro hp
      have := ((hpos_iff c).1 hp).2
      linarith
    · show (if (QuantileOutlierRemover.fit t q cols0 allNum skewFn
          quantile).neg_skew_cols.isEmpty then none else some (quantile c q))
          = some (quantile c q)
      rcases hnege : (QuantileOutlierRemover.fit t q cols0 allNum skewFn
          quantile).neg_skew_cols with _ | ⟨n0, nrest⟩
      · rw [hnege] at hn
        exact absurd hn (List.not_mem_nil c)
      · rfl
  · intro hlo hhi
    have hnp : c ∉ (QuantileOutlierRemover.fit t q cols0 allNum skewFn
        quantile).pos_skew_cols := by
      intro hp
      have := ((hpos_iff c).1 hp).2
      linarith
    have hnn : c ∉ (QuantileOutlierRemover.fit t q cols0 allNum skewFn
        quantile).neg_skew_cols := by
      intro hn
      have := ((hneg_iff c).1 hn).2
      linarith
    refine ⟨hnp, hnn, ?_⟩
    have hcp : c ∉ (tableCols X).filter (fun cc =>
        decide (cc ∈ (QuantileOutlierRemover.fit t q cols0 allNum skewFn
          quantile).pos_skew_cols)) := by
      intro hmem
      have := (List.mem_filter.1 hmem).2
      exact hnp (of_decide_eq_true this)
    have hcn : c ∉ (tableCols X).filter (fun cc =>
        decide (cc ∈ (QuantileOutlierRemover.fit t q cols0 allNum skewFn
          quantile).neg_skew_cols)) := by
      intro hmem
      have := (List.mem_filter.1 hmem).2
      exact hnn (of_decide_eq_true this)
    exact (tableGet_foldModify _ (fun cc => List.map (clipLower
        ((QuantileOutlierRemover.fit t q cols0 allNum skewFn quantile).lower_threshold cc)))
        _ c hcn).trans
      (tableGet_foldModify _ (fun cc => List.map (clipUpper
        ((QuantileOutlierRemover.fit t q cols0 allNum skewFn quantile).upper_threshold cc)))
        X c hcp)

/-- Claim C6 witness: the three skewness regimes at a concrete fit with
threshold 4/5, quantile fraction 1/10, skewness 3/10 on the examined column
c, and the identity quantile function, transforming a one-column table. -/
theorem C6_skew_adaptive_witness :
    ((QuantileOutlierRemover.fit (4/5) (1/10) ["a", "b", "c"] []
        (fun s => if s = "a" then 6/5 else if s = "b" then -(6/5) else 3/10)
        (fun _ p => p)) =
      QuantileOutlierRemover.fit (4/5) (1/10) ["a", "b", "c"] []
        (fun s => if s = "a" then 6/5 else if s = "b" then -(6/5) else 3/10)
        (fun _ p => p)) ∧
    ((0 : ℚ) ≤ 4/5) ∧
    ("c" ∈ (QuantileOutlierRemover.fit (4/5) (1/10) ["a", "b", "c"] []
        (fun s => if s = "a" then 6/5 else if s = "b" then -(6/5) else 3/10)
        (fun _ p => p)).cols) ∧
    (-(4/5 : ℚ) ≤ (fun s : String => if s = "a" then (6/5 : ℚ) else if s = "b" then -(6/5) else 3/10) "c" →
      (fun s : String => if s = "a" then (6/5 : ℚ) else if s = "b" then -(6/5) else 3/10) "c" ≤ 4/5 →
      "c" ∉ (QuantileOutlierRemover.fit (4/5) (1/10) ["a", "b", "c"] []
        (fun s => if s = "a" then 6/5 else if s = "b" then -(6/5) else 3/10)
        (fun _ p => p)).pos_skew_cols ∧
      "c" ∉ (QuantileOutlierRemover.fit (4/5) (1/10) ["a", "b", "c"] []
        (fun s => if s = "a" then 6/5 else if s = "b" then -(6/5) else 3/10)
        (fun _ p => p)).neg_skew_cols ∧
      tableGet (QuantileOutlierRemover.transform
        (QuantileOutlierRemover.fit (4/5) (1/10) ["a", "b", "c"] []
          (fun s => if s = "a" then 6/5 else if s = "b" then -(6/5) else 3/10)
          (fun _ p => p)) [("c", [some 7])]) "c" =
        tableGet [("c", [some (7 : ℚ)])] "c") := by
  refine ⟨rfl, by norm_num, ?_, ?_⟩
  · show "c" ∈ ["a", "b", "c"]
    decide
  · exact (C6_skew_adaptive (4/5) (1/10) ["a", "b", "c"] []
      (fun s => if s = "a" then 6/5 else if s = "b" then -(6/5) else 3/10)
      (fun _ p => p) "c" [("c", [some 7])] _ rfl (by norm_num)
      (by show "c" ∈ ["a", "b", "c"]; decide)).2.2

/-- Absolute correlation matrix of the C1 scenario: the A-B and B-C pairs
correlate at 9/10, the A-C pair at 1/10, the diagonal at 1. -/
def corrABC (a b : String) : ℚ :=
  if a = b then 1
  else if (a = "A" ∧ b = "C") ∨ (a = "C" ∧ b = "A") then 1/10
  else 9/10

/-- Running the greedy elimination in the caller order A, B, C at threshold
4/5 drops B (against A) and then also C — against B, even though B is itself
already dropped. -/
theorem greedyDrop_ABC : greedyDrop corrABC (4/5) ["A", "B", "C"] = ["B", "C"] := by
  have h1 : ((4 : ℚ)/5 < 9/10) = True := by norm_num
  have h2 : ((4 : ℚ)/5 < 1/10) = False := by norm_num
  have h3 : ((4 : ℚ)/5 < 10⁻¹) = False := by norm_num
  simp +decide [greedyDrop, greedyOuter, greedyInner, corrABC, h1, h2, h3]

/-- Running the greedy elimination in the order C, B, A (a possible iteration
order of the Python set difference over the same columns) drops B (against C)
and then A (against the already-dropped B). -/
theorem greedyDrop_CBA : greedyDrop corrABC (4/5) ["C", "B", "A"] = ["B", "A"] := by
  have h1 : ((4 : ℚ)/5 < 9/10) = True := by norm_num
  have h2 : ((4 : ℚ)/5 < 1/10) = False := by norm_num
  have h3 : ((4 : ℚ)/5 < 10⁻¹) = False := by norm_num
  simp +decide [greedyDrop, greedyOuter, greedyInner, corrABC, h1, h2, h3]

/-- Claim C1 counterexample: in the claim's scenario (|corr(A,B)| = 0.9,
|corr(B,C)| = 0.9, |corr(A,C)| = 0.1, threshold 0.8, priority order A, B, C)
the code does not produce the claimed DropSet containing only B: C is dropped
as well, by the comparison against the already-dropped B, so C is not kept. -/
theorem C1_counterexample :
    greedyDrop corrABC (4/5) ["A", "B", "C"] = ["B", "C"] ∧
    greedyDrop corrABC (4/5) ["A", "B", "C"] ≠ ["B"] := by
  refine ⟨greedyDrop_ABC, ?_⟩
  rw [greedyDrop_ABC]
  decide

/-- Claim C1 amended: each later column j is appended exactly when it is not
yet dropped and its absolute correlation with the outer column i exceeds the
threshold, the outer column being consulted even when it was itself dropped
earlier; consequently the A, B, C scenario drops both B and C (keeping only
A), the reversed order C, B, A drops B and A (keeping only C), and because
the code iterates `list(set(cols) - set(categorical_cols))` rather than the
caller's list, that reversed order is a legitimate iteration order for the
very same fit call — the surviving column depends on the set's ordering, not
only on the caller's. -/
theorem C1_greedy_elimination_amended :
    (∀ (corrAbs : String → String → ℚ) (t : ℚ) (ca cb : String)
        (rest drop : List String),
      greedyInner corrAbs t ca (cb :: rest) drop =
        greedyInner corrAbs t ca rest
          (if cb ∉ drop ∧ corrAbs ca cb > t then drop ++ [cb] else drop)) ∧
    greedyDrop corrABC (4/5) ["A", "B", "C"] = ["B", "C"] ∧
    greedyDrop corrABC (4/5) ["C", "B", "A"] = ["B", "A"] ∧
    List.Perm ["C", "B", "A"] ["A", "B", "C"] ∧
    (CorrelationRemover.fit ["A", "B", "C"] ["A", "B", "C"] corrABC (4/5)).keep_cols
      = ["A"] ∧
    (CorrelationRemover.fit ["A", "B", "C"] ["C", "B", "A"] corrABC (4/5)).keep_cols
      = ["C"] := by
  refine ⟨fun _ _ _ _ _ _ => rfl, greedyDrop_ABC, greedyDrop_CBA,
    List.reverse_perm ["A", "B", "C"], ?_, ?_⟩
  · show ["A", "B", "C"].filter
        (fun c => decide (c ∉ greedyDrop corrABC (4/5) ["A", "B", "C"])) = ["A"]
    simp only [greedyDrop_ABC]
    decide
  · show ["A", "B", "C"].filter
        (fun c => decide (c ∉ greedyDrop corrABC (4/5) ["C", "B", "A"])) = ["C"]
    simp only [greedyDrop_CBA]
    decide
